import Mathlib

/-!
Verification development for the indicator computation engine of the
`fastapi` crypto-indicator repository.

The definitions below are a shallow embedding of the Python source:

* `visitV` / `validateExpr` embed `ExpressionValidator` and `validate_expr`
  from `app/indicators/eval_engine.py`;
* `evalV` / `safeEval` embed `SafeEval` and `safe_eval` from the same file;
* `executeIndicator` embeds `ComputeEngine.execute_indicator` from
  `app/indicators/compute.py`;
* `sma`, `ema`, `wilder`, `rolling_max`, `rolling_min`, `stdev` embed the
  pandas transforms of `PYTHON_FUNCTIONS` in `app/function_registry.py`,
  and `loadFunctionRegistry` embeds `load_function_registry`;
* `getIndicator`, `createIndicator`, `updateIndicator` embed the
  corresponding methods of `IndicatorService` in
  `app/indicators/service.py`, over a list-of-rows model of the
  ClickHouse table `technical_indicators`.

Machine floats are modelled by `ℚ` (all computations exercised here are
exact), pandas missing values (`NaN`) by `Option ℚ` in series, and Python
`None` by a dedicated `Val.none` constructor.
-/

/-- Errors raised by the engine.  The Python code raises `ValueError` /
`KeyError` / `HTTPException` with distinct messages; each distinct message
relevant to the claims gets its own constructor.  The spec taxonomy maps
`syntaxRejected` and `onlyFunctionCalls` to `SyntaxRejected`,
`unknownFunction` to `UnknownFunction`, `unknownVariable` to
`UnknownVariable`, `unsupportedImplType` to `UnsupportedFunctionKind`. -/
inductive Err where
  | syntaxRejected
  | onlyFunctionCalls
  | unknownFunction (f : String)
  | unknownVariable (v : String)
  | unsupportedOperator
  | unsupportedTarget
  | missingExecPlan
  | noneInEnv
  | evaluatedToNone
  | keyError (k : String)
  | typeError
  | zeroDivision
  | duplicateName
  | noPythonImpl (n : String)
  | unsupportedImplType (t n : String)
  | fuelOut
  deriving DecidableEq

/-- Unary operator node kinds.  `usub` is `ast.USub`; `uother` stands for
any other unary-op node kind (`ast.UAdd`, `ast.Not`, `ast.Invert`), none
of which is in `ALLOWED_NODES`. -/
inductive UOp where
  | usub
  | uother
  deriving DecidableEq

/-- Binary operator node kinds of `ast.BinOp`.  The first six are exactly
the operator kinds listed in `ALLOWED_NODES`; `bother` stands for any
other kind (`ast.FloorDiv`, `ast.BitOr`, ...), which `generic_visit`
rejects. -/
inductive BOp where
  | add
  | sub
  | mult
  | div
  | pow
  | mod
  | bother
  deriving DecidableEq

/-- Does `generic_visit` accept this binary-operator node kind?  True
exactly for the kinds in `ALLOWED_NODES` (note `ast.Mod` IS allowed). -/
def bopAllowed : BOp → Bool
  | .bother => false
  | _ => true

/-- Python expression trees as produced by `ast.parse(expr, mode="eval")`,
restricted to the node kinds the claims exercise.  `attr` is
`ast.Attribute` and `subscript` is `ast.Subscript` — both off the
allow-list.  `call` keeps positional arguments and keyword arguments in
separate lists, mirroring `ast.Call.args` and `ast.Call.keywords`.  A
comprehension generator is a triple `(target, iter, ifs)` mirroring
`ast.comprehension`. -/
inductive PyExpr where
  | constNum (q : ℚ)
  | constStr (s : String)
  | name (id : String)
  | binop (op : BOp) (l r : PyExpr)
  | unaryop (op : UOp) (e : PyExpr)
  | call (func : PyExpr) (args : List PyExpr) (kwargs : List (String × PyExpr))
  | listlit (elts : List PyExpr)
  | tuplelit (elts : List PyExpr)
  | listcomp (elt : PyExpr) (gens : List (PyExpr × PyExpr × List PyExpr))
  | attr (obj : PyExpr) (field : String)
  | subscript (obj : PyExpr) (idx : PyExpr)

/-- A comprehension generator: target, iterable, filter clauses. -/
abbrev Gen := PyExpr × PyExpr × List PyExpr

/-- Is this node an `ast.Name`?  Mirrors `isinstance(node, ast.Name)`. -/
def PyExpr.isName : PyExpr → Bool
  | .name _ => true
  | _ => false

/-- Model of `self.local_vars.add(t)` (a Python set insertion). -/
def addLocal (t : String) (l : List String) : List String :=
  if l.contains t then l else t :: l

/-- The binding step of `visit_comprehension`: a bare-name target is
registered in `local_vars` BEFORE anything of the generator is visited;
any other target shape is neither registered nor visited. -/
def genLocals (target : PyExpr) (locals : List String) : List String :=
  match target with
  | .name t => addLocal t locals
  | _ => locals

mutual

/-- Embedding of `ExpressionValidator.visit`.  `fu` are the allowed
function names (the registry keys), `va` the allowed variable names, and
the `List String` argument threads `self.local_vars` (which the Python
code only ever grows, never restores).  Mirrors the source exactly:
`visit_Call` checks the callee is a bare `ast.Name` registered in
`allowed_funcs` and recurses only into `node.args` — `node.keywords` is
never visited; `visit_Name` accepts a load of a name found in
`allowed_vars` or `local_vars`; `visit_ListComp` visits the generators
then the element; `generic_visit` rejects any node kind outside
`ALLOWED_NODES` before visiting its children (fields are visited in
`ast` field order: `BinOp` is left, op, right; `UnaryOp` is op, operand). -/
def visitV (fu va : List String) : PyExpr → List String → Except Err (List String)
  | .constNum _, locals => .ok locals
  | .constStr _, locals => .ok locals
  | .name id, locals =>
      if va.contains id || locals.contains id then .ok locals
      else .error (.unknownVariable id)
  | .binop op l r, locals => do
      let l1 ← visitV fu va l locals
      if bopAllowed op then visitV fu va r l1 else .error .syntaxRejected
  | .unaryop op e, locals =>
      if op = .usub then visitV fu va e locals else .error .syntaxRejected
  | .call f args _kwargs, locals =>
      match f with
      | .name fname =>
          if fu.contains fname then visitL fu va args locals
          else .error (.unknownFunction fname)
      | _ => .error .onlyFunctionCalls
  | .listlit elts, locals => visitL fu va elts locals
  | .tuplelit elts, locals => visitL fu va elts locals
  | .listcomp elt gens, locals => do
      let l1 ← visitGens fu va gens locals
      visitV fu va elt l1
  | .attr _ _, _ => .error .syntaxRejected
  | .subscript _ _, _ => .error .syntaxRejected

/-- Visiting a list of child nodes in order, threading `local_vars`. -/
def visitL (fu va : List String) : List PyExpr → List String → Except Err (List String)
  | [], locals => .ok locals
  | e :: es, locals => do
      let l1 ← visitV fu va e locals
      visitL fu va es l1

/-- Embedding of `ExpressionValidator.visit_comprehension`, iterated over
the generator list.  Note the source order: the loop-target name is added
to `local_vars` FIRST (when the target is a bare name; any other target
is neither registered nor visited), and only then are the iterable and
the filter clauses visited. -/
def visitGens (fu va : List String) : List Gen → List String → Except Err (List String)
  | [], locals => .ok locals
  | (target, iterE, ifs) :: gs, locals => do
      let l1 ← visitV fu va iterE (genLocals target locals)
      let l2 ← visitL fu va ifs l1
      visitGens fu va gs l2

end

/-- Embedding of `validate_expr(expr, funcs, vars)`: a fresh validator
(with empty `local_vars`) visits the parsed tree. -/
def validateExpr (fu va : List String) (e : PyExpr) : Except Err (List String) :=
  visitV fu va e []

/-- Did the computation succeed? -/
def excOk {ε α : Type} : Except ε α → Bool
  | .ok _ => true
  | .error _ => false

mutual

/-- The expression CONTAINS a node whose kind is off the allow-list,
anywhere in the tree — including inside keyword arguments, call targets
and comprehension targets.  This is the hypothesis of claim C1 as
stated.  A keyword argument itself counts: the `ast.keyword` node kind
is not in `ALLOWED_NODES`. -/
def cdE : PyExpr → Bool
  | .constNum _ => false
  | .constStr _ => false
  | .name _ => false
  | .binop op l r => !bopAllowed op || cdE l || cdE r
  | .unaryop op e => (op != .usub) || cdE e
  | .call f args kwargs =>
      cdE f || cdL args || !kwargs.isEmpty || cdK kwargs
  | .listlit elts => cdL elts
  | .tuplelit elts => cdL elts
  | .listcomp elt gens => cdGs gens || cdE elt
  | .attr _ _ => true
  | .subscript _ _ => true

/-- Disallowed node kind somewhere in a list of subtrees. -/
def cdL : List PyExpr → Bool
  | [] => false
  | e :: es => cdE e || cdL es

/-- Disallowed node kind somewhere in keyword-argument values. -/
def cdK : List (String × PyExpr) → Bool
  | [] => false
  | (_, e) :: ks => cdE e || cdK ks

/-- Disallowed node kind somewhere in a generator, target included. -/
def cdGs : List Gen → Bool
  | [] => false
  | (target, iterE, ifs) :: gs => cdE target || cdE iterE || cdL ifs || cdGs gs

end

mutual

/-- The expression contains a disallowed-kind node in a position the
validator actually traverses.  This differs from `cdE` exactly on the
positions the source never visits: keyword arguments of calls and
non-name comprehension targets.  For a call, a callee that contains a
disallowed node is counted, since a non-name callee is rejected by
`visit_Call` before any traversal. -/
def tdE : PyExpr → Bool
  | .constNum _ => false
  | .constStr _ => false
  | .name _ => false
  | .binop op l r => !bopAllowed op || tdE l || tdE r
  | .unaryop op e => (op != .usub) || tdE e
  | .call f args _kwargs => cdE f || tdL args
  | .listlit elts => tdL elts
  | .tuplelit elts => tdL elts
  | .listcomp elt gens => tdGs gens || tdE elt
  | .attr _ _ => true
  | .subscript _ _ => true

/-- Traversed-position disallowed node in a list of subtrees. -/
def tdL : List PyExpr → Bool
  | [] => false
  | e :: es => tdE e || tdL es

/-- Traversed-position disallowed node in generator iterables/filters. -/
def tdGs : List Gen → Bool
  | [] => false
  | (_, iterE, ifs) :: gs => tdE iterE || tdL ifs || tdGs gs

end

/-- Runtime values of the evaluator.  `num` is a Python int/float (exact
rational model), `str` a text constant, `series` a pandas Series whose
missing entries (`NaN`) are `Option.none`, `vlist` a Python list (the
result of a comprehension), `none` is Python `None`, and `nan` a scalar
float `NaN` (obtained e.g. by iterating a series with missing entries). -/
inductive Val where
  | num (q : ℚ)
  | str (s : String)
  | series (l : List (Option ℚ))
  | vlist (l : List Val)
  | none
  | nan

/-- Is this value Python `None`? -/
def Val.isPyNone : Val → Bool
  | .none => true
  | _ => false

/-- The evaluation environment: a Python dict as an ordered association
list (insertion order preserved, assignment to an existing key keeps its
position). -/
abbrev Env := List (String × Val)

/-- Dict lookup `env[k]`. -/
def envGet (env : Env) (k : String) : Option Val :=
  (env.find? (fun p => p.1 == k)).map (fun p => p.2)

/-- Dict assignment `env[k] = v`: overwrite in place if the key exists,
append otherwise. -/
def envSet (k : String) (v : Val) (env : Env) : Env :=
  if env.any (fun p => p.1 == k) then
    env.map (fun p => if p.1 == k then (k, v) else p)
  else env ++ [(k, v)]

/-- Python `d.update(m)` / `{**a, **b}`: fold the updates left to right. -/
def dictUpdate (d : Env) (m : Env) : Env :=
  m.foldl (fun acc p => envSet p.1 p.2 acc) d

/-- The function registry as the evaluator sees it: a dict from names to
callables. -/
abbrev Registry := List (String × (List Val → Except Err Val))

/-- Keys of the registry dict (what `fname in self.allowed_funcs`
consults, and what `execute_indicator` passes as allowed functions). -/
def registryKeys (r : Registry) : List String :=
  r.map (fun p => p.1)

/-- Evaluator state.  `SafeEval.env` starts as a REFERENCE to the
caller's dict (`aliased = true`); `visit_ListComp` assigns into it in
place — visible to the caller while aliased — and on exit rebinds
`self.env` to a pre-comprehension copy (`aliased` becomes false), which
does NOT undo the in-place writes already made to the caller's dict. -/
structure EvalSt where
  cur : Env
  caller : Env
  aliased : Bool

/-- An in-place write `self.env[k] = v`: mutates the current dict, and
the caller's dict too whenever `self.env` still aliases it. -/
def stSet (k : String) (v : Val) (st : EvalSt) : EvalSt :=
  { cur := envSet k v st.cur
    caller := if st.aliased then envSet k v st.caller else st.caller
    aliased := st.aliased }

/-- Elementwise combination of two aligned series, `NaN` propagating. -/
def seriesZip (f : ℚ → ℚ → Option ℚ) (a b : List (Option ℚ)) : List (Option ℚ) :=
  List.zipWith (fun x y => match x, y with
    | some p, some q => f p q
    | _, _ => Option.none) a b

/-- Broadcast of a scalar against a series. -/
def seriesMap (f : ℚ → Option ℚ) (a : List (Option ℚ)) : List (Option ℚ) :=
  a.map (fun x => match x with
    | some p => f p
    | Option.none => Option.none)

/-- Scalar/series/list addition, mirroring Python `+` on the value kinds
that can appear (list `+` is concatenation, string `+` concatenation). -/
def valAdd : Val → Val → Except Err Val
  | .num a, .num b => .ok (.num (a + b))
  | .num a, .series b => .ok (.series (seriesMap (fun q => some (a + q)) b))
  | .series a, .num b => .ok (.series (seriesMap (fun q => some (q + b)) a))
  | .series a, .series b => .ok (.series (seriesZip (fun p q => some (p + q)) a b))
  | .vlist a, .vlist b => .ok (.vlist (a ++ b))
  | .str a, .str b => .ok (.str (a ++ b))
  | .nan, _ => .ok .nan
  | _, .nan => .ok .nan
  | _, _ => .error .typeError

/-- Subtraction. -/
def valSub : Val → Val → Except Err Val
  | .num a, .num b => .ok (.num (a - b))
  | .num a, .series b => .ok (.series (seriesMap (fun q => some (a - q)) b))
  | .series a, .num b => .ok (.series (seriesMap (fun q => some (q - b)) a))
  | .series a, .series b => .ok (.series (seriesZip (fun p q => some (p - q)) a b))
  | .nan, _ => .ok .nan
  | _, .nan => .ok .nan
  | _, _ => .error .typeError

/-- Multiplication. -/
def valMul : Val → Val → Except Err Val
  | .num a, .num b => .ok (.num (a * b))
  | .num a, .series b => .ok (.series (seriesMap (fun q => some (a * q)) b))
  | .series a, .num b => .ok (.series (seriesMap (fun q => some (q * b)) a))
  | .series a, .series b => .ok (.series (seriesZip (fun p q => some (p * q)) a b))
  | .nan, _ => .ok .nan
  | _, .nan => .ok .nan
  | _, _ => .error .typeError

/-- Division.  A scalar division by zero raises `ZeroDivisionError` in
Python; inside a pandas series it yields an infinity, which the output
boundary later converts to a missing value — modelled as `Option.none`
directly. -/
def valDiv : Val → Val → Except Err Val
  | .num a, .num b => if b = 0 then .error .zeroDivision else .ok (.num (a / b))
  | .num a, .series b =>
      .ok (.series (seriesMap (fun q => if q = 0 then Option.none else some (a / q)) b))
  | .series a, .num b =>
      .ok (.series (if b = 0 then a.map (fun _ => Option.none)
                    else seriesMap (fun q => some (q / b)) a))
  | .series a, .series b =>
      .ok (.series (seriesZip (fun p q => if q = 0 then Option.none else some (p / q)) a b))
  | .nan, _ => .ok .nan
  | _, .nan => .ok .nan
  | _, _ => .error .typeError

/-- Power.  The model covers integer exponents (all the engine's uses);
`0 ** negative` raises `ZeroDivisionError` in Python.  A non-integer
exponent generally yields an irrational number and is outside the
rational model (`typeError` marks that boundary). -/
def valPow : Val → Val → Except Err Val
  | .num a, .num b =>
      if b.den = 1 then
        if a = 0 ∧ b < 0 then .error .zeroDivision else .ok (.num (a ^ b.num))
      else .error .typeError
  | .series a, .num b =>
      if b.den = 1 then
        .ok (.series (seriesMap (fun q =>
          if q = 0 ∧ b < 0 then Option.none else some (q ^ b.num)) a))
      else .error .typeError
  | .nan, _ => .ok .nan
  | _, .nan => .ok .nan
  | _, _ => .error .typeError

/-- Unary negation. -/
def valNeg : Val → Except Err Val
  | .num a => .ok (.num (-a))
  | .series a => .ok (.series (seriesMap (fun q => some (-q)) a))
  | .nan => .ok .nan
  | _ => .error .typeError

/-- Python iteration over the value produced by a generator's iterable:
a list yields its elements, a pandas series its scalar values (missing
entries iterate as float `NaN`); anything else raises `TypeError`. -/
def iterVals : Val → Except Err (List Val)
  | .vlist l => .ok l
  | .series l => .ok (l.map (fun x => match x with
      | some q => Val.num q
      | Option.none => Val.nan))
  | _ => .error .typeError

mutual

/-- Embedding of `SafeEval.visit`, structurally recursive on fuel (the
Python recursion is bounded by the tree size and the lengths of the
iterated values; fuel 1000 is ample for every run considered here and is
never exhausted in any theorem below).  Mirrors the source:
`visit_Name` is `env[id]` (`KeyError` if absent); `visit_Constant`
returns the constant; `visit_BinOp` evaluates both operands and then
dispatches on the operator — `ast.Mod` (and any other kind) falls
through to `ValueError("Unsupported operator")`; `visit_UnaryOp` negates
under `ast.USub` and otherwise returns the operand unchanged;
`visit_Call` reads `node.func.id`, evaluates the positional arguments
left to right and applies `self.registry[fname]`; list and tuple
literals have no visitor, so `ast.NodeVisitor.generic_visit` visits the
children for effect and the visit returns `None`; `visit_ListComp`
snapshots `self.env`, iterates the generators (assigning the target into
`self.env` in place for each element), and finally rebinds `self.env`
to the snapshot. -/
def evalV (registry : Registry) : Nat → PyExpr → EvalSt → Except Err (Val × EvalSt)
  | 0, _, _ => .error .fuelOut
  | _ + 1, .constNum q, st => .ok (.num q, st)
  | _ + 1, .constStr s, st => .ok (.str s, st)
  | _ + 1, .name id, st =>
      match envGet st.cur id with
      | some v => .ok (v, st)
      | Option.none => .error (.keyError id)
  | fuel + 1, .binop op l r, st => do
      let (lv, st1) ← evalV registry fuel l st
      let (rv, st2) ← evalV registry fuel r st1
      match op with
      | .add => do pure ((← valAdd lv rv), st2)
      | .sub => do pure ((← valSub lv rv), st2)
      | .mult => do pure ((← valMul lv rv), st2)
      | .div => do pure ((← valDiv lv rv), st2)
      | .pow => do pure ((← valPow lv rv), st2)
      | .mod => .error .unsupportedOperator
      | .bother => .error .unsupportedOperator
  | fuel + 1, .unaryop op e, st => do
      let (v, st1) ← evalV registry fuel e st
      match op with
      | .usub => do pure ((← valNeg v), st1)
      | .uother => .ok (v, st1)
  | fuel + 1, .call f args _kwargs, st =>
      match f with
      | .name fname => do
          let (vs, st1) ← evalArgs registry fuel args st
          match (registry.find? (fun p => p.1 == fname)).map (fun p => p.2) with
          | some fn => do pure ((← fn vs), st1)
          | Option.none => .error (.keyError fname)
      | _ => .error .typeError
  | fuel + 1, .listlit elts, st => do
      let (_, st1) ← evalArgs registry fuel elts st
      .ok (.none, st1)
  | fuel + 1, .tuplelit elts, st => do
      let (_, st1) ← evalArgs registry fuel elts st
      .ok (.none, st1)
  | fuel + 1, .listcomp elt gens, st => do
      let saved := st.cur
      let (results, st1) ← evalGens registry fuel elt gens [] st
      .ok (.vlist results, { cur := saved, caller := st1.caller, aliased := false })
  | _ + 1, .attr _ _, _ => .error .typeError
  | _ + 1, .subscript _ _, _ => .error .typeError

/-- Left-to-right evaluation of a list of argument expressions. -/
def evalArgs (registry : Registry) : Nat → List PyExpr → EvalSt →
    Except Err (List Val × EvalSt)
  | 0, _, _ => .error .fuelOut
  | _ + 1, [], st => .ok ([], st)
  | fuel + 1, e :: es, st => do
      let (v, st1) ← evalV registry fuel e st
      let (vs, st2) ← evalArgs registry fuel es st1
      .ok (v :: vs, st2)

/-- The generator loop of `visit_ListComp`: for each generator in order,
evaluate its iterable under the CURRENT environment and run the element
loop, accumulating every produced element into one shared result list.
Filter clauses (`gen.ifs`) are never consulted by the evaluator. -/
def evalGens (registry : Registry) : Nat → PyExpr → List Gen → List Val → EvalSt →
    Except Err (List Val × EvalSt)
  | 0, _, _, _, _ => .error .fuelOut
  | _ + 1, _, [], acc, st => .ok (acc, st)
  | fuel + 1, elt, (target, iterE, _ifs) :: gs, acc, st => do
      let (itv, st1) ← evalV registry fuel iterE st
      let vs ← iterVals itv
      let (acc2, st2) ← evalElems registry fuel elt target vs acc st1
      evalGens registry fuel elt gs acc2 st2

/-- The element loop of `visit_ListComp`: assign the target name into
`self.env` in place (rejecting a non-name target), evaluate the element
expression, append the value. -/
def evalElems (registry : Registry) : Nat → PyExpr → PyExpr → List Val → List Val →
    EvalSt → Except Err (List Val × EvalSt)
  | 0, _, _, _, _, _ => .error .fuelOut
  | _ + 1, _, _, [], acc, st => .ok (acc, st)
  | fuel + 1, elt, target, v :: vs, acc, st =>
      match target with
      | .name t => do
          let st1 := stSet t v st
          let (ev, st2) ← evalV registry fuel elt st1
          evalElems registry fuel elt target vs (acc ++ [ev]) st2
      | _ => .error .unsupportedTarget

end

/-- Embedding of `safe_eval(expr, env, registry)`: run the evaluator with
`self.env` aliasing the caller's dict, raise if the final value is
`None`, and return the value TOGETHER with the caller's dict as it
stands after evaluation (the Python caller keeps using the same dict
object, in-place writes included). -/
def safeEval (e : PyExpr) (env : Env) (registry : Registry) : Except Err (Val × Env) :=
  match evalV registry 1000 e { cur := env, caller := env, aliased := true } with
  | .error er => .error er
  | .ok (v, st) => if v.isPyNone then .error .evaluatedToNone else .ok (v, st.caller)

/-- An exec plan: ordered steps plus the terminal formula (already
parsed; `ast.parse` itself is not modelled). -/
structure ExecPlan where
  steps : List (String × PyExpr)
  formula : PyExpr

/-- The slice of a stored definition that `execute_indicator` consults. -/
structure IndicatorDefn where
  parameters : List (String × Val)
  execPlan : Option ExecPlan

/-- The five base OHLCV columns of the bars dataframe. -/
structure DFrame where
  open_price : List (Option ℚ)
  high_price : List (Option ℚ)
  low_price : List (Option ℚ)
  close_price : List (Option ℚ)
  volume : List (Option ℚ)

/-- The step loop of `execute_indicator`: validate each step's
expression against the environment's current key set, evaluate it, and
bind the result under the step's name — on the same dict object the
evaluator may have mutated in place. -/
def execSteps (registry : Registry) : List (String × PyExpr) → Env → Except Err Env
  | [], env => .ok env
  | (nm, ex) :: rest, env => do
      let _ ← validateExpr (registryKeys registry) (env.map (fun p => p.1)) ex
      let (v, env1) ← safeEval ex env registry
      execSteps registry rest (envSet nm v env1)

/-- Embedding of `ComputeEngine.execute_indicator(definition, df,
registry, params)`.  Mirrors the source: fail when the exec plan is
absent or empty; seed the environment from the five base columns; merge
`merged_params = {**definition["parameters"], **(params or {})}` into the
environment; then REAPPLY the definition's declared parameters in a
second loop (`for key, val in definition.get("parameters", {}).items():
env[key] = val`), which overwrites any caller override; guard against
`None` values (the guard's f-string references `step` before the loop —
a `NameError` if ever triggered); run the steps; validate and evaluate
the final formula. -/
def executeIndicator (defn : IndicatorDefn) (df : DFrame) (registry : Registry)
    (params : List (String × Val)) : Except Err Val :=
  match defn.execPlan with
  | Option.none => .error .missingExecPlan
  | some plan =>
      let env0 : Env :=
        [("open_price", .series df.open_price),
         ("high_price", .series df.high_price),
         ("low_price", .series df.low_price),
         ("close_price", .series df.close_price),
         ("volume", .series df.volume)]
      let merged := dictUpdate defn.parameters params
      let env1 := dictUpdate env0 merged
      let env2 := dictUpdate env1 defn.parameters
      if env2.any (fun p => p.2.isPyNone) then .error .noneInEnv
      else do
        let envN ← execSteps registry plan.steps env2
        let _ ← validateExpr (registryKeys registry) (envN.map (fun p => p.1)) plan.formula
        let (v, _) ← safeEval plan.formula envN registry
        pure v

/-- Arithmetic mean of a window. -/
def meanList (w : List ℚ) : ℚ :=
  w.sum / (w.length : ℚ)

/-- Maximum of a nonempty window (0 on the never-used empty window). -/
def maxList : List ℚ → ℚ
  | [] => 0
  | x :: xs => xs.foldl max x

/-- Minimum of a nonempty window (0 on the never-used empty window). -/
def minList : List ℚ → ℚ
  | [] => 0
  | x :: xs => xs.foldl min x

/-- Sample variance of a window (denominator `len - 1`, pandas default
`ddof = 1`). -/
def sampleVar (w : List ℚ) : ℚ :=
  let m := meanList w
  (w.map (fun x => (x - m) ^ 2)).sum / ((w.length : ℚ) - 1)

/-- Embedding of `s.rolling(window = n, min_periods = n).agg(...)`: the
output at position `i` is missing while fewer than `n` inputs are
available (`i + 1 < n`) and otherwise aggregates the window of the last
`n` inputs ending at `i`. -/
def rollingAgg (agg : List ℚ → ℚ) (n : ℕ) (s : List ℚ) : List (Option ℚ) :=
  (List.range s.length).map (fun i =>
    if i + 1 < n then Option.none else some (agg ((s.drop (i + 1 - n)).take n)))

/-- The exponential recursion `y_i = (1 - α) * y_(i-1) + α * x_i` of
`Series.ewm(..., adjust = False).mean()`, seeded with the first input. -/
def ewmFrom (al : ℚ) (y : ℚ) : List ℚ → List ℚ
  | [] => []
  | x :: xs =>
      let y1 := (1 - al) * y + al * x
      y1 :: ewmFrom al y1 xs

/-- The full `ewm(..., adjust = False).mean()` value sequence. -/
def ewmVals (al : ℚ) : List ℚ → List ℚ
  | [] => []
  | x :: xs => x :: ewmFrom al x xs

/-- Mask the first positions of a sequence as missing, the way
`min_periods = n` does: position `i` is missing while `i + 1 < n`. -/
def maskFirst (n : ℕ) (l : List ℚ) : List (Option ℚ) :=
  (List.range l.length).map (fun i =>
    if i + 1 < n then Option.none else some (l.getD i 0))

/-- `PYTHON_FUNCTIONS["sma"]`: `s.rolling(window = n, min_periods = n).mean()`. -/
def sma (s : List ℚ) (n : ℕ) : List (Option ℚ) :=
  rollingAgg meanList n s

/-- `PYTHON_FUNCTIONS["ema"]`: `s.ewm(span = n, adjust = False).mean()` —
`alpha = 2 / (n + 1)` and NO `min_periods`, so pandas' default
`min_periods = 0` applies and a value is emitted from the very first
input. -/
def ema (s : List ℚ) (n : ℕ) : List (Option ℚ) :=
  maskFirst 0 (ewmVals (2 / ((n : ℚ) + 1)) s)

/-- `PYTHON_FUNCTIONS["wilder"]`: `s.ewm(alpha = 1/n, adjust = False,
min_periods = n).mean()` — the recursion runs from the start but the
first `n - 1` outputs are masked as missing. -/
def wilder (s : List ℚ) (n : ℕ) : List (Option ℚ) :=
  maskFirst n (ewmVals (1 / (n : ℚ)) s)

/-- `PYTHON_FUNCTIONS["rolling_max"]`: `s.rolling(window = n,
min_periods = n).max()`. -/
def rolling_max (s : List ℚ) (n : ℕ) : List (Option ℚ) :=
  rollingAgg maxList n s

/-- `PYTHON_FUNCTIONS["rolling_min"]`: `s.rolling(window = n,
min_periods = n).min()`. -/
def rolling_min (s : List ℚ) (n : ℕ) : List (Option ℚ) :=
  rollingAgg minList n s

/-- `PYTHON_FUNCTIONS["stdev"]`: `s.rolling(window = n,
min_periods = n).std()`.  Pandas emits the square root of the sample
variance; the square root of a rational is irrational in general, so the
model carries the sample variance itself.  The square root is applied
pointwise to produced values only, so the defined/missing pattern — all
the claims consult — is identical. -/
def stdev (s : List ℚ) (n : ℕ) : List (Option ℚ) :=
  rollingAgg sampleVar n s

/-- Names having an entry in the `PYTHON_FUNCTIONS` table of
`app/function_registry.py`. -/
def PYTHON_FUNCTION_NAMES : List String :=
  ["sma", "ema", "wilder", "diff", "cumsum", "max", "min", "abs",
   "shift", "rolling_max", "rolling_min", "stdev"]

/-- A registry entry as built by `load_function_registry`: either a
native Python implementation resolved from `PYTHON_FUNCTIONS`, or the
placeholder closure registered for `impl_type = "sql"` (which merely
formats a call string when invoked, instead of computing anything). -/
inductive RegImpl where
  | python (name : String)
  | sqlPlaceholder (name : String)
  deriving DecidableEq

/-- Embedding of `load_function_registry`: fold the catalog rows
`(name, impl_type)` in order; `"python"` resolves against
`PYTHON_FUNCTIONS` (raising when no implementation exists), `"sql"`
registers the placeholder closure, and ANY other kind raises
`ValueError(f"Unsupported impl_type ...")` at build time. -/
def loadFunctionRegistry : List (String × String) →
    Except Err (List (String × RegImpl))
  | [] => .ok []
  | (nm, t) :: rest =>
      if t = "python" then
        if PYTHON_FUNCTION_NAMES.contains nm then do
          let reg ← loadFunctionRegistry rest
          .ok ((nm, .python nm) :: reg)
        else .error (.noPythonImpl nm)
      else if t = "sql" then do
        let reg ← loadFunctionRegistry rest
        .ok ((nm, .sqlPlaceholder nm) :: reg)
      else .error (.unsupportedImplType t nm)

/-- JSON documents, as far as the service serializes them. -/
inductive Json where
  | jnull
  | jbool (b : Bool)
  | jnum (n : Int)
  | jstr (s : String)
  | jarr (xs : List Json)
  | jobj (kvs : List (String × Json))

/-- String escaping of `json.dumps` for the characters the development
uses (backslash, quote, newline; `ensure_ascii = False` keeps the rest
verbatim). -/
def escChar (c : Char) : String :=
  if c = Char.ofNat 92 then "\\\\"
  else if c = Char.ofNat 34 then "\\\""
  else if c = Char.ofNat 10 then "\\n"
  else String.singleton c

/-- A JSON string literal. -/
def quoteStr (s : String) : String :=
  "\"" ++ String.mk (s.data.foldr (fun c acc => (escChar c).data ++ acc) []) ++ "\""

/-- Pending work of the JSON writer: one document, the elements of an
array, or the members of an object. -/
inductive JTask where
  | one (j : Json)
  | arr (xs : List Json)
  | obj (kvs : List (String × Json))

/-- The JSON writer, structurally recursive on fuel so that it reduces
on concrete documents (fuel 1000 is never exhausted on any document in
this development; default `json.dumps` separators). -/
def dumpsT : ℕ → JTask → String
  | 0, _ => ""
  | fuel + 1, .one j =>
      match j with
      | .jnull => "null"
      | .jbool true => "true"
      | .jbool false => "false"
      | .jnum n => toString n
      | .jstr s => quoteStr s
      | .jarr xs => "[" ++ dumpsT fuel (.arr xs) ++ "]"
      | .jobj kvs => "\x7b" ++ dumpsT fuel (.obj kvs) ++ "\x7d"
  | fuel + 1, .arr xs =>
      match xs with
      | [] => ""
      | x :: rest =>
          dumpsT fuel (.one x) ++ (if rest.isEmpty then "" else ", ") ++
            dumpsT fuel (.arr rest)
  | fuel + 1, .obj kvs =>
      match kvs with
      | [] => ""
      | (k, v) :: rest =>
          quoteStr k ++ ": " ++ dumpsT fuel (.one v) ++
            (if rest.isEmpty then "" else ", ") ++ dumpsT fuel (.obj rest)

/-- Embedding of `json.dumps`. -/
def dumpsJson (j : Json) : String :=
  dumpsT 1000 (.one j)

/-- Whitespace skipping for the JSON reader. -/
def skipWs : List Char → List Char
  | [] => []
  | c :: cs =>
      if c = ' ' ∨ c = Char.ofNat 10 ∨ c = Char.ofNat 9 ∨ c = Char.ofNat 13 then
        skipWs cs
      else c :: cs

/-- Read a JSON string body up to the closing quote, undoing the escapes
`escChar` produces. -/
def pStr (acc : String) : List Char → Option (String × List Char)
  | [] => Option.none
  | c :: cs =>
      if c = Char.ofNat 92 then
        match cs with
        | [] => Option.none
        | d :: ds => pStr (acc.push (if d = 'n' then Char.ofNat 10 else d)) ds
      else if c = Char.ofNat 34 then some (acc, cs)
      else pStr (acc.push c) cs

/-- Read a run of decimal digits. -/
def pDigits (acc : ℕ) : List Char → ℕ × List Char
  | [] => (acc, [])
  | c :: cs =>
      if c.isDigit then pDigits (acc * 10 + (c.toNat - 48)) cs
      else (acc, c :: cs)

mutual

/-- A fueled recursive-descent reader modelling `json.loads` on the
documents `dumpsJson` emits (`json.loads` raises on malformed input;
the model signals that with `Option.none`). -/
def parseJ : ℕ → List Char → Option (Json × List Char)
  | 0, _ => Option.none
  | fuel + 1, cs =>
      match skipWs cs with
      | [] => Option.none
      | c :: rest =>
          if c = Char.ofNat 34 then
            (pStr "" rest).map (fun p => (Json.jstr p.1, p.2))
          else if c = '[' then
            match skipWs rest with
            | ']' :: rest2 => some (Json.jarr [], rest2)
            | rest2 => (parseElems fuel rest2).map (fun p => (Json.jarr p.1, p.2))
          else if c = Char.ofNat 123 then
            match skipWs rest with
            | r :: rest2 =>
                if r = Char.ofNat 125 then some (Json.jobj [], rest2)
                else (parseFields fuel (r :: rest2)).map (fun p => (Json.jobj p.1, p.2))
            | [] => Option.none
          else if c = 't' then
            match rest with
            | 'r' :: 'u' :: 'e' :: rest2 => some (Json.jbool true, rest2)
            | _ => Option.none
          else if c = 'f' then
            match rest with
            | 'a' :: 'l' :: 's' :: 'e' :: rest2 => some (Json.jbool false, rest2)
            | _ => Option.none
          else if c = 'n' then
            match rest with
            | 'u' :: 'l' :: 'l' :: rest2 => some (Json.jnull, rest2)
            | _ => Option.none
          else if c = '-' then
            match rest with
            | d :: ds =>
                if d.isDigit then
                  let p := pDigits (d.toNat - 48) ds
                  some (Json.jnum (-(p.1 : Int)), p.2)
                else Option.none
            | [] => Option.none
          else if c.isDigit then
            let p := pDigits (c.toNat - 48) rest
            some (Json.jnum (p.1 : Int), p.2)
          else Option.none

/-- Comma-separated array elements, ended by a closing bracket. -/
def parseElems : ℕ → List Char → Option (List Json × List Char)
  | 0, _ => Option.none
  | fuel + 1, cs => do
      let (j, rest) ← parseJ fuel cs
      match skipWs rest with
      | ',' :: rest2 => (parseElems fuel rest2).map (fun p => (j :: p.1, p.2))
      | ']' :: rest2 => some ([j], rest2)
      | _ => Option.none

/-- Comma-separated object members, ended by a closing brace. -/
def parseFields : ℕ → List Char → Option (List (String × Json) × List Char)
  | 0, _ => Option.none
  | fuel + 1, cs =>
      match skipWs cs with
      | q :: rest =>
          if q = Char.ofNat 34 then do
            let (k, rest2) ← pStr "" rest
            match skipWs rest2 with
            | ':' :: rest3 => do
                let (v, rest4) ← parseJ fuel rest3
                match skipWs rest4 with
                | ',' :: rest5 =>
                    (parseFields fuel rest5).map (fun p => ((k, v) :: p.1, p.2))
                | r :: rest5 =>
                    if r = Char.ofNat 125 then some ([(k, v)], rest5) else Option.none
                | [] => Option.none
            | _ => Option.none
          else Option.none
      | [] => Option.none

end

/-- Model of `json.loads`, via the fueled reader. -/
def loadsJson (s : String) : Json :=
  match parseJ (s.length + 1) s.data with
  | some (j, _) => j
  | Option.none => Json.jnull

/-- One row of the `technical_indicators` CRUD table as
`IndicatorService` reads and writes it.  `dependencies`, `parameters`
and `exec_plan` are `String` columns holding `json.dumps` output.  The
table's DDL (its migration) is not part of the source tree; per
ClickHouse semantics an insert that omits a column fills the column
default, the empty string for a `String` column.  The timestamp columns
play no role in any claim and are omitted. -/
structure DbRow where
  id : String
  indicator_name : String
  category : String
  description : String
  formula : String
  dependencies : String
  parameters : String
  exec_plan : String
  deriving DecidableEq

/-- The stored table: rows in insertion order (`SELECT ... LIMIT 1`
without `ORDER BY` is modelled as the first matching row). -/
abbrev Store := List DbRow

/-- Python `str.upper()` (ASCII suffices here). -/
def upperStr (s : String) : String :=
  String.mk (s.data.map Char.toUpper)

/-- A dict value of the dict `get_indicator` returns: `dependencies` and
`parameters` come back as the raw serialized text of the cell, while a
payload carries structured documents — the sum keeps both apart. -/
inductive FieldVal where
  | text (s : String)
  | doc (j : Json)

/-- Serialization that `update_indicator` applies to a merged field:
`json.dumps` of whatever the merged dict holds — double-encoding a value
that is already serialized text. -/
def dumpsField : FieldVal → String
  | .text s => dumpsJson (Json.jstr s)
  | .doc j => dumpsJson j

/-- The dict `get_indicator` builds from a found row: `dependencies` and
`parameters` are the raw cells (`r[5]`, `r[6]` — never parsed), while
`exec_plan` is `json.loads(r[9]) if r[9] else` the empty dict. -/
structure IndicatorDict where
  id : String
  indicator_name : String
  category : String
  description : String
  formula : String
  dependencies : FieldVal
  parameters : FieldVal
  exec_plan : Json

/-- Row-to-dict conversion of `get_indicator`. -/
def rowToDict (r : DbRow) : IndicatorDict :=
  { id := r.id
    indicator_name := r.indicator_name
    category := r.category
    description := r.description
    formula := r.formula
    dependencies := .text r.dependencies
    parameters := .text r.parameters
    exec_plan := if r.exec_plan = "" then Json.jobj [] else loadsJson r.exec_plan }

/-- Embedding of `IndicatorService.get_indicator(id_or_name)`.  The
source guards with `type(id_or_name) == uuid` — comparing the value's
type against the `uuid` MODULE object, which is never equal — so the
`id` query parameter is always `NULL` (matching no row) and the `name`
parameter is always `id_or_name.upper()`; the row is found only when
some row's `indicator_name` equals the UPPERCASED argument. -/
def getIndicator (store : Store) (idOrName : String) : Option IndicatorDict :=
  let nm := upperStr idOrName
  (store.find? (fun r => r.indicator_name == nm)).map rowToDict

/-- The payload of `create_indicator`.  NOTE: the pydantic model
`IndicatorBase` declares no `exec_plan` field even though
`_row_from_model` reads `model.exec_plan`; the model here grants the
charitable reading in which the payload does carry one. -/
structure IndicatorModel where
  indicator_name : String
  category : Option String
  description : Option String
  formula : String
  dependencies : Json
  parameters : Json
  exec_plan : Json

/-- Embedding of `IndicatorService._row_from_model` (the fresh UUID is
passed in explicitly as `newId`). -/
def rowFromModel (m : IndicatorModel) (newId : String) : DbRow :=
  { id := newId
    indicator_name := m.indicator_name
    category := m.category.getD ""
    description := m.description.getD ""
    formula := m.formula
    dependencies := dumpsJson m.dependencies
    parameters := dumpsJson m.parameters
    exec_plan := dumpsJson m.exec_plan }

/-- Embedding of `IndicatorService.create_indicator`: reject when some
row already carries the EXACT payload name (this pre-check compares
without uppercasing), then insert the serialized row and return its id. -/
def createIndicator (store : Store) (payload : IndicatorModel) (newId : String) :
    Except Err (String × Store) :=
  if store.any (fun r => r.indicator_name == payload.indicator_name) then
    .error .duplicateName
  else
    .ok (newId, store ++ [rowFromModel payload newId])

/-- A partial update payload.  `some` marks a field that is present and
not `None` (the source treats unset fields and explicit `None` values
identically: neither overwrites). -/
structure UpdatePayload where
  indicator_name : Option String
  category : Option String
  description : Option String
  formula : Option String
  dependencies : Option Json
  parameters : Option Json

/-- Embedding of `IndicatorService.update_indicator`: read the existing
record through `get_indicator` (with its broken id lookup), merge the
payload fields over the returned dict, and insert a replacement row with
columns `id ... parameters` ONLY — `exec_plan` is absent from both the
row dict and the insert's `column_names`, so the persisted replacement
row holds the column default `""` there; `dependencies` and `parameters`
are re-serialized with `json.dumps`, double-encoding the raw text the
read returned. -/
def updateIndicator (store : Store) (id : String) (p : UpdatePayload) :
    Bool × Store :=
  match getIndicator store id with
  | Option.none => (false, store)
  | some existing =>
      let row : DbRow :=
        { id := existing.id
          indicator_name := p.indicator_name.getD existing.indicator_name
          category := p.category.getD existing.category
          description := p.description.getD existing.description
          formula := p.formula.getD existing.formula
          dependencies := dumpsField (match p.dependencies with
            | some j => .doc j
            | Option.none => existing.dependencies)
          parameters := dumpsField (match p.parameters with
            | some j => .doc j
            | Option.none => existing.parameters)
          exec_plan := "" }
      (true, store ++ [row])

/-- Concrete expression `sma(close_price, n = a.b)`: an allowed call whose
KEYWORD argument holds an attribute access. -/
def exKwAttr : PyExpr :=
  .call (.name "sma") [.name "close_price"] [("n", .attr (.name "a") "b")]

/-- Concrete expression `[f for f in close_price]`. -/
def exComp : PyExpr :=
  .listcomp (.name "f") [(.name "f", .name "close_price", [])]

/-- Concrete expression `[f for f in f]`: the loop target also serves as
the iterable. -/
def exSelfComp : PyExpr :=
  .listcomp (.name "f") [(.name "f", .name "f", [])]

/-- Concrete definition used against claim C2: one comprehension step,
then a formula consisting of the bare loop-target name. -/
def defnLeak : IndicatorDefn :=
  { parameters := []
    execPlan := some { steps := [("y", exComp)], formula := .name "f" } }

/-- Concrete definition used against claim C3: declared default `n = 3`,
formula `n`. -/
def defnOverride : IndicatorDefn :=
  { parameters := [("n", .num 3)]
    execPlan := some { steps := [], formula := .name "n" } }

/-- A two-bar frame with closes 1 and 2 (other columns empty). -/
def dfTwoBars : DFrame :=
  { open_price := [], high_price := [], low_price := [],
    close_price := [some 1, some 2], volume := [] }

/-- A frame with every column empty. -/
def dfEmpty : DFrame :=
  { open_price := [], high_price := [], low_price := [],
    close_price := [], volume := [] }

/-- A stored row with the lowercase name `rsi` and a nonempty exec plan,
used against claims C4 and C6. -/
def rowRsi : DbRow :=
  { id := "u-1", indicator_name := "rsi", category := "momentum",
    description := "", formula := "x", dependencies := "\x7b\x7d",
    parameters := "\x7b\x7d", exec_plan := "\x7b\"formula\": \"x\"\x7d" }

/-- The row of claim C6: the stored name is uppercase, so that the broken
uppercasing lookup can actually find it and reach the write path. -/
def rowSto : DbRow :=
  { id := "u-7", indicator_name := "STO", category := "", description := "",
    formula := "x", dependencies := "\x7b\x7d", parameters := "\x7b\x7d",
    exec_plan := "\x7b\"formula\": \"x\"\x7d" }

/-- A partial update payload carrying only a new description. -/
def descOnly : UpdatePayload :=
  { indicator_name := Option.none, category := Option.none,
    description := some "new", formula := Option.none,
    dependencies := Option.none, parameters := Option.none }

/-- The payload of claim C5. -/
def payloadC5 : IndicatorModel :=
  { indicator_name := "macd", category := Option.none,
    description := Option.none, formula := "fast - slow",
    dependencies := Json.jobj [], parameters := Json.jobj [("n", Json.jnum 9)],
    exec_plan := Json.jobj [("formula", Json.jstr "fast - slow")] }

mutual

/-- Soundness of the default-deny check over traversed positions: a
disallowed node kind anywhere the validator walks forces a failure. -/
theorem tdE_sound (fu va : List String) : (e : PyExpr) → (locals : List String) →
    tdE e = true → excOk (visitV fu va e locals) = false
  | .constNum _, _, h => by simp [tdE] at h
  | .constStr _, _, h => by simp [tdE] at h
  | .name _, _, h => by simp [tdE] at h
  | .binop op l r, locals, h => by
      simp only [visitV]
      cases hv : visitV fu va l locals with
      | error er => rfl
      | ok l1 =>
          have hnl : tdE l = false := by
            cases htl : tdE l with
            | false => rfl
            | true =>
                have hres := tdE_sound fu va l locals htl
                rw [hv] at hres
                simp [excOk] at hres
          show excOk (if bopAllowed op then visitV fu va r l1
            else Except.error Err.syntaxRejected) = false
          cases hop : bopAllowed op with
          | false => rfl
          | true =>
              rw [tdE, hnl, hop] at h
              simp at h
              simpa using tdE_sound fu va r l1 h
  | .unaryop op e, locals, h => by
      cases op with
      | usub =>
          rw [tdE] at h
          simp at h
          simpa [visitV] using tdE_sound fu va e locals h
      | uother => simp [visitV, excOk]
  | .call f args kwargs, locals, h => by
      cases f with
      | name fname =>
          have ha : tdL args = true := by simpa [tdE, cdE] using h
          by_cases hc : fname ∈ fu
          · simpa [visitV, hc] using tdL_sound fu va args locals ha
          · simp [visitV, hc, excOk]
      | constNum q => simp [visitV, excOk]
      | constStr s => simp [visitV, excOk]
      | binop op l r => simp [visitV, excOk]
      | unaryop op e => simp [visitV, excOk]
      | call g as ks => simp [visitV, excOk]
      | listlit es => simp [visitV, excOk]
      | tuplelit es => simp [visitV, excOk]
      | listcomp el gs => simp [visitV, excOk]
      | attr o a => simp [visitV, excOk]
      | subscript o i => simp [visitV, excOk]
  | .listlit elts, locals, h => by
      simpa [visitV] using tdL_sound fu va elts locals (by simpa [tdE] using h)
  | .tuplelit elts, locals, h => by
      simpa [visitV] using tdL_sound fu va elts locals (by simpa [tdE] using h)
  | .listcomp elt gens, locals, h => by
      simp only [visitV]
      cases hg : visitGens fu va gens locals with
      | error er => rfl
      | ok l1 =>
          have hng : tdGs gens = false := by
            cases htg : tdGs gens with
            | false => rfl
            | true =>
                have hres := tdGs_sound fu va gens locals htg
                rw [hg] at hres
                simp [excOk] at hres
          show excOk (visitV fu va elt l1) = false
          rw [tdE, hng] at h
          simp at h
          exact tdE_sound fu va elt l1 h
  | .attr _ _, _, _ => by simp [visitV, excOk]
  | .subscript _ _, _, _ => by simp [visitV, excOk]

/-- Soundness of the traversed-position check along child lists. -/
theorem tdL_sound (fu va : List String) : (es : List PyExpr) → (locals : List String) →
    tdL es = true → excOk (visitL fu va es locals) = false
  | [], _, h => by simp [tdL] at h
  | e :: es, locals, h => by
      simp only [visitL]
      cases hv : visitV fu va e locals with
      | error er => rfl
      | ok l1 =>
          have hne : tdE e = false := by
            cases hte : tdE e with
            | false => rfl
            | true =>
                have hres := tdE_sound fu va e locals hte
                rw [hv] at hres
                simp [excOk] at hres
          show excOk (visitL fu va es l1) = false
          rw [tdL, hne] at h
          simp at h
          exact tdL_sound fu va es l1 h

/-- Soundness of the traversed-position check along generator lists. -/
theorem tdGs_sound (fu va : List String) : (gs : List Gen) → (locals : List String) →
    tdGs gs = true → excOk (visitGens fu va gs locals) = false
  | [], _, h => by simp [tdGs] at h
  | (target, iterE, ifs) :: gs, locals, h => by
      simp only [visitGens]
      cases hv : visitV fu va iterE (genLocals target locals) with
      | error er => rfl
      | ok l1 =>
          have hni : tdE iterE = false := by
            cases hti : tdE iterE with
            | false => rfl
            | true =>
                have hres := tdE_sound fu va iterE (genLocals target locals) hti
                rw [hv] at hres
                simp [excOk] at hres
          show excOk (do
            let l2 ← visitL fu va ifs l1
            visitGens fu va gs l2) = false
          cases hl : visitL fu va ifs l1 with
          | error er => rfl
          | ok l2 =>
              have hnf : tdL ifs = false := by
                cases htf : tdL ifs with
                | false => rfl
                | true =>
                    have hres := tdL_sound fu va ifs l1 htf
                    rw [hl] at hres
                    simp [excOk] at hres
              show excOk (visitGens fu va gs l2) = false
              rw [tdGs, hni, hnf] at h
              simp at h
              exact tdGs_sound fu va gs l2 h

end

/-- Reduction of a successful stage of the validator pipeline. -/
theorem okBind {α β : Type} (a : α) (f : α → Except Err β) :
    (do let x ← Except.ok a; f x) = f a := rfl

/-- The exponential recursion preserves length. -/
theorem ewmFrom_length (al : ℚ) : ∀ (y : ℚ) (l : List ℚ), (ewmFrom al y l).length = l.length
  | _, [] => rfl
  | y, x :: xs => by simp [ewmFrom, ewmFrom_length]

/-- The `ewm` value sequence is as long as its input. -/
theorem ewmVals_length (al : ℚ) (l : List ℚ) : (ewmVals al l).length = l.length := by
  cases l <;> simp [ewmVals, ewmFrom_length]

/-- Claim C1, counterexample: the expression `sma(close_price, n = a.b)`
contains an attribute access — a node kind off the allow-list, sitting
inside an argument of an otherwise-allowed call — yet `validate_expr`
SUCCEEDS, because `visit_Call` recurses only into `node.args` and never
into `node.keywords`.  This refutes the claim that validation never
succeeds on such an expression. -/
theorem c1_counterexample :
    cdE exKwAttr = true ∧
    excOk (validateExpr ["sma"] ["close_price"] exKwAttr) = true := by
  decide

/-- Claim C1, amended: default-deny holds on every position the
validator actually traverses — for any expression carrying a
disallowed-kind node outside keyword arguments of calls and outside
non-name comprehension targets, `validate_expr` never succeeds
(whatever the allowed functions and variables are). -/
theorem c1_default_deny_traversed (fu va : List String) (e : PyExpr)
    (h : tdE e = true) : excOk (validateExpr fu va e) = false :=
  tdE_sound fu va e [] h

/-- Witness for C1 amended: the bare attribute access `a.b` is rejected. -/
theorem c1_default_deny_traversed_witness :
    tdE (PyExpr.attr (.name "a") "b") = true ∧
    excOk (validateExpr [] ["a"] (PyExpr.attr (.name "a") "b")) = false :=
  ⟨by decide, c1_default_deny_traversed [] ["a"] (PyExpr.attr (.name "a") "b") (by decide)⟩

/-- Claim C2: evaluating the comprehension `[f for f in close_price]`
binds the loop target by in-place assignment into the caller's dict;
rebinding `self.env` to the saved copy afterwards does not undo it, so
`f = 2` is still in the caller's environment when `safe_eval` returns —
and in the exec plan `steps = [y = [f for f in close_price]]`,
`formula = "f"`, the supposedly-transient loop target validates and
evaluates as the final formula, returning 2.  The claim that the
caller's environment is unchanged is refuted. -/
theorem c2_comprehension_leaks :
    safeEval exComp [("close_price", .series [some 1, some 2])] [] =
      .ok (.vlist [.num 1, .num 2],
           [("close_price", .series [some 1, some 2]), ("f", .num 2)]) ∧
    executeIndicator defnLeak dfTwoBars [] [] = .ok (.num 2) :=
  ⟨rfl, rfl⟩

/-- Claim C3: with declared parameter `n = 3` and caller override
`n = 5`, the environment binds 3, not 5 — the second merge loop
(`for key, val in definition["parameters"].items(): env[key] = val`)
reapplies the defaults over the already-merged overrides, so the final
formula `n` evaluates to the default.  The claim that the override wins
is refuted. -/
theorem c3_override_clobbered :
    executeIndicator defnOverride dfEmpty [] [("n", .num 5)] = .ok (.num 3) :=
  rfl

/-- Claim C4: with the single stored row (id `u-1`, name `rsi`),
`get_indicator` returns nothing BOTH for the row's id and for its exact
name: the `type(id_or_name) == uuid` guard compares a type against the
`uuid` module and is always false, so the query's id parameter is always
NULL, and the name parameter is uppercased (`RSI` matches no stored
`rsi`).  The claim that lookup by id and by exact name succeeds is
refuted on both counts. -/
theorem c4_lookup_returns_nothing :
    getIndicator [rowRsi] "u-1" = Option.none ∧
    getIndicator [rowRsi] "rsi" = Option.none :=
  ⟨rfl, rfl⟩

/-- Claim C5: `create` succeeds and persists the serialized row, but the
immediately following `read` with the returned id yields nothing (the id
branch of `get_indicator` is dead code), so the create/read round-trip
never returns the definition, let alone one deep-equal on every field. -/
theorem c5_roundtrip_broken :
    createIndicator [] payloadC5 "u-3" = .ok ("u-3", [rowFromModel payloadC5 "u-3"]) ∧
    getIndicator [rowFromModel payloadC5 "u-3"] "u-3" = Option.none :=
  ⟨rfl, rfl⟩

/-- Claim C6: updating only `description` on a stored row (whose
uppercase name lets the broken lookup find it) persists a replacement
row whose `exec_plan` cell is the empty column default — the insert
lists no `exec_plan` column — while the stored row's `exec_plan` was
nonempty; `dependencies` and `parameters` come back double-encoded.
The claim that every field absent from the payload is preserved in the
persisted replacement row is refuted. -/
theorem c6_update_drops_exec_plan :
    updateIndicator [rowSto] "sto" descOnly =
      (true, [rowSto,
        { id := "u-7", indicator_name := "STO", category := "",
          description := "new", formula := "x",
          dependencies := "\"\x7b\x7d\"", parameters := "\"\x7b\x7d\"",
          exec_plan := "" }]) ∧
    rowSto.exec_plan = "\x7b\"formula\": \"x\"\x7d" :=
  ⟨rfl, rfl⟩

/-- Claim C7, counterexample: in `[f for f in f]` the iterable is a load
of the loop-target name with no outer binding, and validation SUCCEEDS
(the target is registered in `local_vars` before the iterable is
visited); and in `[f for f in f] + f` a sibling load after the
comprehension also SUCCEEDS (the binding is never discarded).  Both
halves of the claimed binding discipline are refuted. -/
theorem c7_counterexample :
    excOk (validateExpr [] [] exSelfComp) = true ∧
    excOk (validateExpr [] [] (.binop .add exSelfComp (.name "f"))) = true := by
  decide

/-- Claim C7, amended: for EVERY target name `t` and any allowed
variables, the validator accepts `[t for t in t] + t`: the target name
is added to the local bindings before the iterable (or any filter) is
visited, and the binding persists for the rest of the expression after
the comprehension. -/
theorem c7_target_bound_before_iterable (t : String) (fu va : List String) :
    excOk (validateExpr fu va
      (.binop .add (.listcomp (.name t) [(.name t, .name t, [])]) (.name t))) = true := by
  simp [validateExpr, visitV, visitGens, visitL, genLocals, addLocal, bopAllowed,
    excOk, okBind]

/-- Claim C8: the modulo expression `a % b` over declared names passes
validation (`ast.Mod` is in `ALLOWED_NODES`), but evaluating it with
`a = 7, b = 3` raises `ValueError("Unsupported operator")` instead of
returning the remainder 1 — `visit_BinOp` has no `ast.Mod` branch.  The
end-to-end claim fails at the evaluation half. -/
theorem c8_modulo_validates_but_eval_fails :
    excOk (validateExpr [] ["a", "b"] (.binop .mod (.name "a") (.name "b"))) = true ∧
    safeEval (.binop .mod (.name "a") (.name "b"))
      [("a", .num 7), ("b", .num 3)] [] = .error .unsupportedOperator :=
  ⟨by decide, rfl⟩

/-- Claim C9, counterexample: `ema([1,2,3], 2)` produces the defined
value 1 at index 0, where only one input is available — fewer than the
window size 2 — because `ema` is built without `min_periods`.  The claim
that every windowed transform, `ema` included, yields a missing value on
an incomplete window is refuted. -/
theorem c9_counterexample : (ema [1, 2, 3] 2)[0]? = some (some 1) := by
  decide

/-- Claim C9, amended: the transforms built with `min_periods = n` —
`sma`, `wilder`, `rolling_max`, `rolling_min`, `stdev` — yield a missing
value at every output position with fewer than `n` inputs available;
`ema` alone emits values from the first input. -/
theorem c9_full_window_only (s : List ℚ) (n i : ℕ) (hw : i + 1 < n) (hi : i < s.length) :
    (sma s n)[i]? = some Option.none ∧ (wilder s n)[i]? = some Option.none ∧
    (rolling_max s n)[i]? = some Option.none ∧ (rolling_min s n)[i]? = some Option.none ∧
    (stdev s n)[i]? = some Option.none := by
  refine ⟨?_, ?_, ?_, ?_, ?_⟩ <;>
  simp [sma, wilder, rolling_max, rolling_min, stdev, rollingAgg, maskFirst,
    List.getElem?_map, List.getElem?_range, hi, hw, ewmVals_length]

/-- Witness for C9 amended at window 3, position 1 of `[1, 2, 3]`. -/
theorem c9_full_window_only_witness :
    (1 + 1 < 3 ∧ 1 < [(1 : ℚ), 2, 3].length) ∧
    ((sma [1, 2, 3] 3)[1]? = some Option.none ∧
     (wilder [1, 2, 3] 3)[1]? = some Option.none ∧
     (rolling_max [1, 2, 3] 3)[1]? = some Option.none ∧
     (rolling_min [1, 2, 3] 3)[1]? = some Option.none ∧
     (stdev [1, 2, 3] 3)[1]? = some Option.none) :=
  ⟨by decide, c9_full_window_only [1, 2, 3] 3 1 (by decide) (by decide)⟩

/-- Claim C10, counterexample: the catalog row `("foo", "sql")` has a
non-native implementation kind, yet `load_function_registry` SUCCEEDS,
registering a placeholder closure instead of failing at build time.
The claim that every non-native kind fails the build is refuted. -/
theorem c10_counterexample :
    loadFunctionRegistry [("foo", "sql")] = .ok [("foo", .sqlPlaceholder "foo")] :=
  rfl

/-- Claim C10, amended: only a kind that is neither `"python"` nor
`"sql"` makes the build fail — whenever the catalog contains such a row,
`load_function_registry` raises before returning a registry. -/
theorem c10_unknown_kind_fails (rows : List (String × String)) (nm t : String)
    (hmem : (nm, t) ∈ rows) (hp : t ≠ "python") (hs : t ≠ "sql") :
    excOk (loadFunctionRegistry rows) = false := by
  induction rows with
  | nil => cases hmem
  | cons hd tl ih =>
      obtain ⟨nm0, t0⟩ := hd
      rcases List.mem_cons.mp hmem with heq | hmem2
      · cases heq
        simp [loadFunctionRegistry, hp, hs, excOk]
      · have ihres := ih hmem2
        simp only [loadFunctionRegistry]
        cases hres : loadFunctionRegistry tl with
        | ok reg => rw [hres] at ihres; simp [excOk] at ihres
        | error er => split_ifs <;> rfl

/-- Witness for C10 amended at the one-row catalog with kind
`clickhouse`. -/
theorem c10_unknown_kind_fails_witness :
    (("f", "clickhouse") ∈ [("f", "clickhouse")] ∧
      ("clickhouse" : String) ≠ "python" ∧ ("clickhouse" : String) ≠ "sql") ∧
    excOk (loadFunctionRegistry [("f", "clickhouse")]) = false :=
  ⟨by decide, c10_unknown_kind_fails [("f", "clickhouse")] "f" "clickhouse"
    (by decide) (by decide) (by decide)⟩
